import Mathlib

/-!
Verification development for the EncounterOS overlay HUD
(`tracker_overlay.py` and the dialog helpers).

The Python overlay is embedded shallowly:

* machine integers / file timestamps are `Int`;
* the float arithmetic of `_compute_fit` is modelled over `ℚ`
  (the spec's formulas are exact, so exact arithmetic is adequate);
* a watched artifact on disk is `Option (Int × Option α)`:
  `none` means the file is missing (`FileNotFoundError`),
  `some (mtime, none)` means the file is present but unparsable
  (`json.JSONDecodeError` and friends), `some (mtime, some doc)`
  means a successful parse;
* each section of `Overlay._update_from_disk` becomes a function
  `OverlayState → OverlayState × Nat × Nat` returning the new state,
  the number of `self.repaint()` calls it issued, and the number of
  parse attempts (file reads / `json.load`s) it performed;
* the drawing code is abstracted to the list of draw operations it
  emits (geometry and colors are dropped, the decision structure —
  which ops are emitted, for which combatant, with which data — is
  kept faithfully).
-/

namespace EncounterOS

/-- Python `a or b` on an optional string field: `None` and `""` are falsy. -/
def pyOrStr : Option String → String → String
  | none, d => d
  | some s, d => if s = "" then d else s

/-- Python `a or b` on an optional integer field: `None` and `0` are falsy. -/
def pyOrInt : Option Int → Int → Int
  | none, d => d
  | some x, d => if x = 0 then d else x

/-! ## `_compute_fit` (tracker_overlay.py lines 15–27) -/

/-- Shallow embedding of `_compute_fit(src_w, src_h, dst_w, dst_h, mode)`:
returns `(scale_x, scale_y, offset_x, offset_y)`. -/
def compute_fit (src_w src_h dst_w dst_h : ℚ) (mode : String) :
    ℚ × ℚ × ℚ × ℚ :=
  let sx := dst_w / src_w
  let sy := dst_h / src_h
  if mode = "contain" then
    let s := min sx sy
    (s, s, (dst_w - src_w * s) / 2, (dst_h - src_h * s) / 2)
  else if mode = "cover" then
    let s := max sx sy
    (s, s, (dst_w - src_w * s) / 2, (dst_h - src_h * s) / 2)
  else if mode = "stretch" then
    (sx, sy, 0, 0)
  else
    (1, 1, 0, 0)

/-! ## `move_to_screen` (tracker_overlay.py lines 76–89) -/

structure Rect where
  x : Int
  y : Int
  w : Int
  h : Int
  deriving Repr, DecidableEq

structure Screen where
  name : String
  geometry : Rect
  deriving Repr, DecidableEq

/-- The `for s in screens: if s.name() == screen_name: ...` loop. -/
def findScreen : List Screen → String → Option Screen
  | [], _ => none
  | s :: rest, nm => if s.name = nm then some s else findScreen rest nm

/-- Shallow embedding of `Overlay.move_to_screen`.  Returns the geometry
the surface is set to, or `none` when `setGeometry` is never called
(`target_screen` stayed `None`).  `screens` is assumed non-empty when
`screen_name` is `None` (Qt always reports at least one screen; an
empty list would raise `IndexError` in the Python). -/
def move_to_screen (screens : List Screen) (screen_name : Option String) :
    Option Rect :=
  let target : Option Screen :=
    match screen_name with
    | none => screens.head?
    | some nm => findScreen screens nm
  match target with
  | some s => some s.geometry
  | none => none

/-! ## Dialog text parsing (tracker_overlay.py line 221) -/

/-- Python's `str.split(sep)` specialised to the literal separator
`"\n---\n"` of line 221: scan left to right, cut at every
(non-overlapping) occurrence of the five-character separator, keep empty
pieces.  `acc` holds the current piece, reversed. -/
def splitDialogChars : List Char → List Char → List (List Char)
  | '\n' :: '-' :: '-' :: '-' :: '\n' :: rest, acc =>
    acc.reverse :: splitDialogChars rest []
  | c :: rest, acc => splitDialogChars rest (c :: acc)
  | [], acc => [acc.reverse]

/-- `content.split("\n---\n")` from the dialog-text reload. -/
def parseDialog (content : String) : List String :=
  (splitDialogChars content.data []).map String.mk

/-- Python's `str.lower()` (ASCII suffices for the status keys and side
names involved). -/
def strLower (s : String) : String :=
  String.mk (s.data.map Char.toLower)

/-! ## Data model: documents read from disk -/

/-- One entry of the roster document's `"party"` list.  Every field is
optional — the overlay accesses them with `.get(...)` and defaults. -/
structure Combatant where
  name : Option String := none
  hp : Option Int := none
  hpMax : Option Int := none
  side : Option String := none
  statuses : Option (List String) := none
  portrait : Option String := none
  deriving Repr, DecidableEq

/-- The roster document `{"party": [...], "turn_index": int, "round": int}`. -/
structure PartyDoc where
  party : Option (List Combatant) := none
  turn_index : Option Int := none
  round : Option Int := none
  deriving Repr, DecidableEq

/-- The config document's `"overlay"` sub-object. -/
structure OverlayCfg where
  screen : Option String := none
  fit : Option String := none
  fullscreen : Option Bool := none
  deriving Repr, DecidableEq

/-- The config document. -/
structure ConfigDoc where
  poll_ms : Option Int := none
  auto_refresh : Option Bool := none
  theme : Option String := none
  overlay : Option OverlayCfg := none
  mode : Option String := none
  deriving Repr, DecidableEq

/-- The dialog index side-channel `{"index": int}`. -/
structure IdxDoc where
  index : Option Int := none
  deriving Repr, DecidableEq

/-- A watched artifact as seen at one tick: `none` = file missing,
`some (mtime, none)` = present but unparsable, `some (mtime, some v)` =
parsed successfully.  The dialog text file is plain text, so its read
cannot fail once the file exists. -/
structure Disk where
  party : Option (Int × Option PartyDoc) := none
  config : Option (Int × Option ConfigDoc) := none
  dialogTxt : Option (Int × String) := none
  dialogIdx : Option (Int × Option IdxDoc) := none
  deriving Repr, DecidableEq

/-! ## In-memory overlay state (`Overlay.__init__`) -/

structure OverlayState where
  combatants : List Combatant := []
  turn_index : Int := -1
  round : Int := 1
  dialog : List String := []
  dialog_idx : Int := -1
  last_party_mod : Int := 0
  last_dialog_mod : Int := 0
  last_cfg_mod : Int := 0
  theme_name : String := "gm_modern"
  fit_mode : String := "contain"
  cfg_screen : Option String := none
  cfg_fullscreen : Bool := true
  mode : String := "combat"
  timerInterval : Int := 100
  timerActive : Bool := true
  typing_text : String := ""
  typing_index : Nat := 0
  typing_active : Bool := false
  deriving Repr, DecidableEq

/-- `Overlay._reset_typing_effect` (lines 246–255). -/
def resetTypingEffect (st : OverlayState) : OverlayState :=
  if st.dialog ≠ [] ∧ 0 ≤ st.dialog_idx ∧ st.dialog_idx < (st.dialog.length : Int) then
    { st with typing_text := st.dialog.getD st.dialog_idx.toNat "",
              typing_index := 0,
              typing_active := true }
  else
    { st with typing_active := false,
              typing_text := "",
              typing_index := 0 }

/-! ## The four sections of `Overlay._update_from_disk`

Each returns `(new state, repaint count, parse-attempt count)`. -/

/-- Party section (lines 152–167).  On `FileNotFoundError` or
`json.JSONDecodeError` the `except` clause does nothing; note that on a
failed parse `last_party_mod` is *not* advanced (the assignment sits after
`json.load` in the `try`). -/
def updatePartySec (d : Option (Int × Option PartyDoc)) (st : OverlayState) :
    OverlayState × Nat × Nat :=
  match d with
  | none => (st, 0, 0)
  | some (mtime, content) =>
    if st.last_party_mod < mtime then
      match content with
      | none => (st, 0, 1)
      | some doc =>
        ({ st with combatants := doc.party.getD [],
                   turn_index := doc.turn_index.getD (-1),
                   round := doc.round.getD 1,
                   last_party_mod := mtime }, 1, 1)
    else (st, 0, 0)

/-- Config section (lines 170–213).  The source guards each assignment
with "only if different"; assigning the unchanged value is the same state,
so the assignments are collapsed into one record update, while the three
`repaint()` calls (theme change, `set_fit_mode`, mode change) keep their
"only if different" conditions.  A failure anywhere in the `try`
(unparsable JSON, `int()` of a bad `poll_ms`, ...) is swallowed by
`except Exception: pass` before any field was assigned. -/
def updateConfigSec (d : Option (Int × Option ConfigDoc)) (st : OverlayState) :
    OverlayState × Nat × Nat :=
  match d with
  | none => (st, 0, 0)
  | some (cfg_m, content) =>
    if st.last_cfg_mod < cfg_m then
      match content with
      | none => (st, 0, 1)
      | some cfg =>
        let ov := cfg.overlay.getD {}
        let new_theme := pyOrStr cfg.theme st.theme_name
        let new_fit := pyOrStr ov.fit st.fit_mode
        let new_mode := pyOrStr cfg.mode "combat"
        let repaints :=
          (if new_theme ≠ st.theme_name then 1 else 0) +
          (if new_fit ≠ st.fit_mode then 1 else 0) +
          (if new_mode ≠ st.mode then 1 else 0)
        ({ st with timerInterval := max 100 (cfg.poll_ms.getD 200),
                   timerActive := cfg.auto_refresh.getD true,
                   theme_name := new_theme,
                   fit_mode := new_fit,
                   cfg_screen := ov.screen,
                   cfg_fullscreen := ov.fullscreen.getD true,
                   mode := new_mode,
                   last_cfg_mod := cfg_m }, repaints, 1)
    else (st, 0, 0)

/-- Dialog text section (lines 216–230).  A missing file resets the
dialog list and the typing state (the `except FileNotFoundError` branch);
a present file is re-read only when its mtime advanced. -/
def updateDialogSec (d : Option (Int × String)) (st : OverlayState) :
    OverlayState × Nat × Nat :=
  match d with
  | none =>
    ({ st with dialog := [],
               typing_active := false,
               typing_text := "",
               typing_index := 0 }, 0, 0)
  | some (mtime, content) =>
    if st.last_dialog_mod < mtime then
      (resetTypingEffect
        { st with dialog := parseDialog content, last_dialog_mod := mtime }, 1, 1)
    else (st, 0, 0)

/-- Dialog index section (lines 232–244).  The source computes `mtime`
for the side-channel file but never compares it to anything, so a present
file is opened and `json.load`ed on every tick. -/
def updateDialogIdxSec (d : Option (Int × Option IdxDoc)) (st : OverlayState) :
    OverlayState × Nat × Nat :=
  match d with
  | none => (st, 0, 0)
  | some (_mtime, content) =>
    match content with
    | none => (st, 0, 1)
    | some doc =>
      let new_idx := doc.index.getD (-1)
      if new_idx ≠ st.dialog_idx then
        (resetTypingEffect { st with dialog_idx := new_idx }, 0, 1)
      else
        ({ st with dialog_idx := new_idx }, 0, 1)

/-- One `_update_from_disk` tick: the four sections in source order.
Returns the final state, the total number of `repaint()` calls and the
total number of parse attempts. -/
def tick (d : Disk) (st : OverlayState) : OverlayState × Nat × Nat :=
  let r1 := updatePartySec d.party st
  let r2 := updateConfigSec d.config r1.1
  let r3 := updateDialogSec d.dialogTxt r2.1
  let r4 := updateDialogIdxSec d.dialogIdx r3.1
  (r4.1, r1.2.1 + r2.2.1 + r3.2.1 + r4.2.1, r1.2.2 + r2.2.2 + r3.2.2 + r4.2.2)

/-! ## Combat rendering (`_draw_combat`, lines 305–418)

Geometry and colors are dropped; the list of draw operations per card —
and the data each one carries — is kept. -/

/-- `(m.get("side") or "Enemy").lower()` (line 337). -/
def sideOf (m : Combatant) : String := strLower (pyOrStr m.side "Enemy")

/-- `hp_max = max(1, int(m.get("hpMax") or 1))` (line 370). -/
def hpMaxEff (m : Combatant) : Int := max 1 (pyOrInt m.hpMax 1)

/-- `hp = max(0, min(int(m.get("hp") or 0), hp_max))` (line 371). -/
def hpEff (m : Combatant) : Int := max 0 (min (pyOrInt m.hp 0) (hpMaxEff m))

/-- `ratio = hp / hp_max` (line 372). -/
def hpFill (m : Combatant) : ℚ := (hpEff m : ℚ) / (hpMaxEff m : ℚ)

/-- A draw operation emitted while painting one combat card. -/
inductive DrawOp where
  /-- the rounded card rectangle, colored by side -/
  | cardRect (side : String)
  /-- the combatant's portrait pixmap -/
  | portraitPix (path : String)
  /-- `p.drawText(..., m.get("name","???"))` -/
  | nameText (s : String)
  /-- the background HP bar rectangle -/
  | hpBarBg
  /-- the filled portion of the HP bar, with its fill fraction -/
  | hpBarFill (ratio : ℚ)
  /-- the `f"{hp}/{hp_max} HP"` caption -/
  | hpText (hp hpMax : Int)
  /-- a status badge drawn from its cached icon pixmap -/
  | statusIcon (key : String)
  /-- the fallback: a plain circle, drawn when no icon is cached -/
  | statusFallbackEllipse (key : String)
  /-- the active-turn badge with its 1-based label -/
  | activeBadge (label : String)
  deriving Repr, DecidableEq

/-- The text drawn by an op, when it draws any. -/
def textOfOp : DrawOp → Option String
  | .nameText s => some s
  | .hpText hp hpMax => some (toString hp ++ "/" ++ toString hpMax ++ " HP")
  | .activeBadge l => some l
  | _ => none

/-- One iteration of the `for i, m in enumerate(self.combatants)` loop.
`icons` is the set of keys with a cached status icon
(`self.status_icons`, lowercase stems); `portraits` the cached portrait
paths. -/
def drawCard (icons : List String) (portraits : List String)
    (turn_index : Int) (i : Nat) (m : Combatant) : List DrawOp :=
  let portraitOps :=
    match m.portrait with
    | none => []
    | some por =>
      if por ≠ "" ∧ por ∈ portraits then [DrawOp.portraitPix por] else []
  let statusOps :=
    ((m.statuses.getD []).take 4).map fun key =>
      if strLower key ∈ icons then DrawOp.statusIcon key
      else DrawOp.statusFallbackEllipse key
  let badgeOps :=
    if (i : Int) = turn_index then
      [DrawOp.activeBadge (toString (pyOrInt (some turn_index) 0 + 1))]
    else []
  DrawOp.cardRect (sideOf m) :: portraitOps ++
    [DrawOp.nameText (m.name.getD "???"),
     DrawOp.hpBarBg,
     DrawOp.hpBarFill (hpFill m),
     DrawOp.hpText (hpEff m) (hpMaxEff m)] ++
    statusOps ++ badgeOps

/-- `_draw_combat`: nothing on an empty roster, otherwise one card per
combatant (the surrounding panel rectangle is not modelled). -/
def drawCombat (icons : List String) (portraits : List String)
    (st : OverlayState) : List DrawOp :=
  if st.combatants = [] then []
  else
    (st.combatants.enum.map fun p =>
      drawCard icons portraits st.turn_index p.1 p.2).flatten

/-! ## Dialog rendering (`_draw_dialog`, lines 420–463) -/

/-- `idx = self.dialog_idx if (0 <= self.dialog_idx < len(self.dialog)) else 0`
(line 427). -/
def dialogIdxEff (st : OverlayState) : Int :=
  if 0 ≤ st.dialog_idx ∧ st.dialog_idx < (st.dialog.length : Int) then
    st.dialog_idx
  else 0

/-! ## Concrete fixtures (from the spec's test scenario) -/

def goblin : Combatant :=
  { name := some "Goblin A", hp := some 7, hpMax := some 7,
    side := some "enemy" }

def hero : Combatant :=
  { name := some "Hero", hp := some 15, hpMax := some 20,
    side := some "ally", statuses := some ["poisoned"] }

def sage : Combatant :=
  { name := some "Sage", side := some "neutral" }

/-- A three-entry roster document carrying the out-of-range
`turn_index = 7` of the spec's clamping scenario. -/
def rosterDoc3 : PartyDoc :=
  { party := some [goblin, hero, sage], turn_index := some 7,
    round := some 2 }

/-- A disk where only the roster file exists, freshly written. -/
def diskRoster7 : Disk := { party := some (1, some rosterDoc3) }

/-- An overlay state in dialog mode with one block loaded and an
out-of-range `dialog_idx`. -/
def stDialogW : OverlayState :=
  { dialog := ["Hello."], dialog_idx := 5, turn_index := 7 }

/-- A state that has already observed every artifact at timestamp 10. -/
def stTicked : OverlayState :=
  { last_party_mod := 10, last_cfg_mod := 10, last_dialog_mod := 10 }

/-- A disk where no artifact's timestamp has advanced past 10, yet the
dialog-index side-channel is present (and will be re-parsed). -/
def diskStale : Disk :=
  { party := some (5, some rosterDoc3), config := some (5, none),
    dialogTxt := some (5, "Hello."), dialogIdx := some (5, some ⟨some (-1)⟩) }

/-- A disk whose roster file is newer than last observed but
unparsable. -/
def diskBad : Disk := { party := some (20, none) }

/-- A disk where roster, config and dialog-index files are all newer
than last observed and all unparsable. -/
def diskMalformed : Disk :=
  { party := some (20, none), config := some (20, none),
    dialogIdx := some (20, none) }

/-- A disk where both the roster and the dialog text changed in the same
tick. -/
def diskTwo : Disk :=
  { party := some (1, some rosterDoc3), dialogTxt := some (1, "Hello.") }

/-- A state with a roster and a dialog loaded and the typing effect
running. -/
def stLoaded : OverlayState :=
  { combatants := [goblin, hero], turn_index := 1, round := 2,
    dialog := ["Hi."], dialog_idx := 0,
    typing_text := "Hi.", typing_active := true,
    last_party_mod := 10, last_dialog_mod := 10 }

/-! # Claims -/

/-- The state after a tick is the four sections composed in source
order. -/
theorem tick_state (d : Disk) (st : OverlayState) :
    (tick d st).1 =
      (updateDialogIdxSec d.dialogIdx
        (updateDialogSec d.dialogTxt
          (updateConfigSec d.config
            (updatePartySec d.party st).1).1).1).1 := rfl

/-- A tick's repaint count is the sum over the four sections. -/
theorem tick_repaints (d : Disk) (st : OverlayState) :
    (tick d st).2.1 =
      (updatePartySec d.party st).2.1 +
      (updateConfigSec d.config (updatePartySec d.party st).1).2.1 +
      (updateDialogSec d.dialogTxt
        (updateConfigSec d.config (updatePartySec d.party st).1).1).2.1 +
      (updateDialogIdxSec d.dialogIdx
        (updateDialogSec d.dialogTxt
          (updateConfigSec d.config
            (updatePartySec d.party st).1).1).1).2.1 := rfl

/-- Frame: the party section leaves every non-roster field unchanged. -/
theorem partySec_frame (d : Option (Int × Option PartyDoc)) (st : OverlayState) :
    (updatePartySec d st).1.dialog = st.dialog ∧
    (updatePartySec d st).1.dialog_idx = st.dialog_idx ∧
    (updatePartySec d st).1.last_dialog_mod = st.last_dialog_mod ∧
    (updatePartySec d st).1.last_cfg_mod = st.last_cfg_mod ∧
    (updatePartySec d st).1.theme_name = st.theme_name ∧
    (updatePartySec d st).1.fit_mode = st.fit_mode ∧
    (updatePartySec d st).1.cfg_screen = st.cfg_screen ∧
    (updatePartySec d st).1.cfg_fullscreen = st.cfg_fullscreen ∧
    (updatePartySec d st).1.mode = st.mode ∧
    (updatePartySec d st).1.timerInterval = st.timerInterval ∧
    (updatePartySec d st).1.timerActive = st.timerActive ∧
    (updatePartySec d st).1.typing_text = st.typing_text ∧
    (updatePartySec d st).1.typing_index = st.typing_index ∧
    (updatePartySec d st).1.typing_active = st.typing_active := by
  rcases d with _ | ⟨m, _ | doc⟩
  · simp [updatePartySec]
  · simp only [updatePartySec]
    split <;> simp
  · simp only [updatePartySec]
    split <;> simp

/-- Frame: the config section leaves roster, dialog and typing state
unchanged. -/
theorem configSec_frame (d : Option (Int × Option ConfigDoc)) (st : OverlayState) :
    (updateConfigSec d st).1.combatants = st.combatants ∧
    (updateConfigSec d st).1.turn_index = st.turn_index ∧
    (updateConfigSec d st).1.round = st.round ∧
    (updateConfigSec d st).1.last_party_mod = st.last_party_mod ∧
    (updateConfigSec d st).1.dialog = st.dialog ∧
    (updateConfigSec d st).1.dialog_idx = st.dialog_idx ∧
    (updateConfigSec d st).1.last_dialog_mod = st.last_dialog_mod ∧
    (updateConfigSec d st).1.typing_text = st.typing_text ∧
    (updateConfigSec d st).1.typing_index = st.typing_index ∧
    (updateConfigSec d st).1.typing_active = st.typing_active := by
  rcases d with _ | ⟨m, _ | cfg⟩
  · simp [updateConfigSec]
  · simp only [updateConfigSec]
    split <;> simp
  · simp only [updateConfigSec]
    split <;> simp

/-- Frame: the dialog-text section leaves roster, config and
`dialog_idx` unchanged. -/
theorem dialogSec_frame (d : Option (Int × String)) (st : OverlayState) :
    (updateDialogSec d st).1.combatants = st.combatants ∧
    (updateDialogSec d st).1.turn_index = st.turn_index ∧
    (updateDialogSec d st).1.round = st.round ∧
    (updateDialogSec d st).1.last_party_mod = st.last_party_mod ∧
    (updateDialogSec d st).1.last_cfg_mod = st.last_cfg_mod ∧
    (updateDialogSec d st).1.theme_name = st.theme_name ∧
    (updateDialogSec d st).1.fit_mode = st.fit_mode ∧
    (updateDialogSec d st).1.cfg_screen = st.cfg_screen ∧
    (updateDialogSec d st).1.cfg_fullscreen = st.cfg_fullscreen ∧
    (updateDialogSec d st).1.mode = st.mode ∧
    (updateDialogSec d st).1.timerInterval = st.timerInterval ∧
    (updateDialogSec d st).1.timerActive = st.timerActive ∧
    (updateDialogSec d st).1.dialog_idx = st.dialog_idx := by
  rcases d with _ | ⟨m, txt⟩
  · simp [updateDialogSec]
  · simp only [updateDialogSec]
    split
    · simp only [resetTypingEffect]
      split <;> simp
    · simp

/-- Frame: the dialog-index section leaves roster, config and the
dialog list unchanged. -/
theorem idxSec_frame (d : Option (Int × Option IdxDoc)) (st : OverlayState) :
    (updateDialogIdxSec d st).1.combatants = st.combatants ∧
    (updateDialogIdxSec d st).1.turn_index = st.turn_index ∧
    (updateDialogIdxSec d st).1.round = st.round ∧
    (updateDialogIdxSec d st).1.last_party_mod = st.last_party_mod ∧
    (updateDialogIdxSec d st).1.last_cfg_mod = st.last_cfg_mod ∧
    (updateDialogIdxSec d st).1.theme_name = st.theme_name ∧
    (updateDialogIdxSec d st).1.fit_mode = st.fit_mode ∧
    (updateDialogIdxSec d st).1.cfg_screen = st.cfg_screen ∧
    (updateDialogIdxSec d st).1.cfg_fullscreen = st.cfg_fullscreen ∧
    (updateDialogIdxSec d st).1.mode = st.mode ∧
    (updateDialogIdxSec d st).1.timerInterval = st.timerInterval ∧
    (updateDialogIdxSec d st).1.timerActive = st.timerActive ∧
    (updateDialogIdxSec d st).1.dialog = st.dialog ∧
    (updateDialogIdxSec d st).1.last_dialog_mod = st.last_dialog_mod := by
  rcases d with _ | ⟨m, _ | doc⟩
  · simp [updateDialogIdxSec]
  · simp [updateDialogIdxSec]
  · simp only [updateDialogIdxSec]
    split
    · simp only [resetTypingEffect]
      split <;> simp
    · simp

/-- Helper: the active-turn badge appears among a card's draw ops
exactly when the card's position equals `turn_index`. -/
theorem activeBadge_mem_drawCard (icons portraits : List String)
    (t : Int) (i : Nat) (m : Combatant) (l : String) :
    DrawOp.activeBadge l ∈ drawCard icons portraits t i m ↔
      ((i : Int) = t ∧ l = toString (pyOrInt (some t) 0 + 1)) := by
  have hst : ∀ key : String,
      (if strLower key ∈ icons then DrawOp.statusIcon key
       else DrawOp.statusFallbackEllipse key) ≠ DrawOp.activeBadge l := by
    intro key; split <;> simp
  have hnotin : ∀ xs : List String,
      DrawOp.activeBadge l ∉
        (List.map (fun key => if strLower key ∈ icons then DrawOp.statusIcon key
          else DrawOp.statusFallbackEllipse key) xs).take 4 := by
    intro xs h
    obtain ⟨key, _, hk⟩ := List.mem_map.mp (List.take_subset 4 _ h)
    exact hst key hk
  by_cases hit : (i : Int) = t
  all_goals
    cases hp : m.portrait with
    | none =>
      simp [drawCard, hp, hit, hst]
      first
      | exact hnotin _
      | (intro h; exact absurd h (hnotin _))
    | some por =>
      by_cases hpor : por ≠ "" ∧ por ∈ portraits <;>
        simp [drawCard, hp, hit, hst, hpor] <;>
        first
        | exact hnotin _
        | (intro h; exact absurd h (hnotin _))

/-- **C4**: for positive source dimensions, `_compute_fit` returns under
`contain` a uniform scale `min(dstW/srcW, dstH/srcH)` with centering
offsets `(dst − src·scale)/2` on both axes (expressed algebraically:
`src·scale + 2·offset = dst`), under `cover` the same with `max`, and
under `stretch` independent scales `dstW/srcW`, `dstH/srcH` with zero
offsets, so a logical point `(x, y)` lands at exactly
`(x·scaleX, y·scaleY)`. -/
theorem compute_fit_correct (sw sh dw dh x y : ℚ)
    (hsw : 0 < sw) (hsh : 0 < sh) :
    (∀ s sy tx ty, compute_fit sw sh dw dh "contain" = (s, sy, tx, ty) →
       s = min (dw / sw) (dh / sh) ∧ sy = s ∧
       sw * s + 2 * tx = dw ∧ sh * s + 2 * ty = dh) ∧
    (∀ s sy tx ty, compute_fit sw sh dw dh "cover" = (s, sy, tx, ty) →
       s = max (dw / sw) (dh / sh) ∧ sy = s ∧
       sw * s + 2 * tx = dw ∧ sh * s + 2 * ty = dh) ∧
    (∀ sx sy tx ty, compute_fit sw sh dw dh "stretch" = (sx, sy, tx, ty) →
       sx = dw / sw ∧ sy = dh / sh ∧ tx = 0 ∧ ty = 0 ∧
       tx + x * sx = x * (dw / sw) ∧ ty + y * sy = y * (dh / sh)) := by
  have hc : compute_fit sw sh dw dh "contain" =
      (min (dw / sw) (dh / sh), min (dw / sw) (dh / sh),
       (dw - sw * min (dw / sw) (dh / sh)) / 2,
       (dh - sh * min (dw / sw) (dh / sh)) / 2) := by
    simp [compute_fit]
  have hv : compute_fit sw sh dw dh "cover" =
      (max (dw / sw) (dh / sh), max (dw / sw) (dh / sh),
       (dw - sw * max (dw / sw) (dh / sh)) / 2,
       (dh - sh * max (dw / sw) (dh / sh)) / 2) := by
    simp [compute_fit]
  have hs : compute_fit sw sh dw dh "stretch" = (dw / sw, dh / sh, 0, 0) := by
    simp [compute_fit]
  refine ⟨?_, ?_, ?_⟩
  · intro s sy tx ty h
    rw [hc] at h
    obtain ⟨h1, h2, h3, h4⟩ := by simpa [Prod.ext_iff] using h.symm
    subst h1; subst h2; subst h3; subst h4
    exact ⟨rfl, rfl, by ring, by ring⟩
  · intro s sy tx ty h
    rw [hv] at h
    obtain ⟨h1, h2, h3, h4⟩ := by simpa [Prod.ext_iff] using h.symm
    subst h1; subst h2; subst h3; subst h4
    exact ⟨rfl, rfl, by ring, by ring⟩
  · intro sx sy tx ty h
    rw [hs] at h
    obtain ⟨h1, h2, h3, h4⟩ := by simpa [Prod.ext_iff] using h.symm
    subst h1; subst h2; subst h3; subst h4
    exact ⟨rfl, rfl, rfl, rfl, by ring, by ring⟩

/-- Witness for C4 at the design resolution 1280×720 mapped to a
1920×1080 surface. -/
theorem compute_fit_correct_witness :
    (1280 : ℚ) * (compute_fit 1280 720 1920 1080 "contain").1 +
      2 * (compute_fit 1280 720 1920 1080 "contain").2.2.1 = 1920 :=
  ((compute_fit_correct 1280 720 1920 1080 0 0 (by norm_num) (by norm_num)).1
    _ _ _ _ rfl).2.2.1

/-- **C6** fails on the code: the dialog reader splits only on the
literal `"\n---\n"` separator — a document whose blocks are separated by
a blank line parses as a single block, and lines inside a block are kept
verbatim (not joined with spaces). -/
theorem parseDialog_blank_line_counterexample :
    (parseDialog "Hello.\n\nGoodbye.").length = 1 ∧
    parseDialog "line one\nline two\n---\nnext" ≠
      ["line one line two", "next"] := by
  decide

/-- **C6 (amended)**: the dialog text document is split into blocks only
at literal `"\n---\n"` separator lines; blank lines do not separate
blocks, and a block's internal newlines are preserved in the parsed
block (any joining with spaces happens later, in the renderer's
whitespace word-split). -/
theorem parseDialog_amended :
    parseDialog "Hello.\n---\nGoodbye." = ["Hello.", "Goodbye."] ∧
    parseDialog "line one\nline two\n---\nnext" =
      ["line one\nline two", "next"] ∧
    parseDialog "Hello.\n\nGoodbye." = ["Hello.\n\nGoodbye."] ∧
    parseDialog "" = [""] := by
  decide

/-- **C8** fails on the code: with one connected screen named `"DP-1"`,
`move_to_screen "HDMI-2"` (an unmatched name) never calls
`setGeometry` — the surface is *not* moved to the primary screen's
rectangle. -/
theorem move_to_screen_counterexample :
    move_to_screen [⟨"DP-1", ⟨0, 0, 1920, 1080⟩⟩] (some "HDMI-2") = none ∧
    move_to_screen [⟨"DP-1", ⟨0, 0, 1920, 1080⟩⟩] (some "HDMI-2") ≠
      some ⟨0, 0, 1920, 1080⟩ := by
  decide

/-- **C8 (amended)**: `move_to_screen None` falls back to the first
(primary) screen's rectangle; a name matching a connected screen
resolves to that screen; an *unmatched* name is a no-op — the surface
geometry is left unchanged rather than falling back to the primary
screen. -/
theorem move_to_screen_amended (screens : List Screen) (nm : String) :
    (move_to_screen screens none = screens.head?.map Screen.geometry) ∧
    (∀ s, findScreen screens nm = some s →
       move_to_screen screens (some nm) = some s.geometry) ∧
    (findScreen screens nm = none → move_to_screen screens (some nm) = none) ∧
    findScreen screens nm = screens.find? (fun s => s.name = nm) := by
  refine ⟨?_, ?_, ?_, ?_⟩
  · cases screens <;> rfl
  · intro s h
    simp [move_to_screen, h]
  · intro h
    simp [move_to_screen, h]
  · induction screens with
    | nil => rfl
    | cons s rest ih =>
      by_cases h : s.name = nm
      · simp [findScreen, List.find?, h]
      · simp [findScreen, List.find?, h, ih]

/-- Witness for C8 (amended): two screens, resolving the second by name
and the primary by `None`. -/
theorem move_to_screen_amended_witness :
    move_to_screen [⟨"DP-1", ⟨0, 0, 1920, 1080⟩⟩,
                    ⟨"HDMI-1", ⟨1920, 0, 2560, 1440⟩⟩] (some "HDMI-1") =
      some ⟨1920, 0, 2560, 1440⟩ :=
  (move_to_screen_amended
      [⟨"DP-1", ⟨0, 0, 1920, 1080⟩⟩, ⟨"HDMI-1", ⟨1920, 0, 2560, 1440⟩⟩]
      "HDMI-1").2.1 ⟨"HDMI-1", ⟨1920, 0, 2560, 1440⟩⟩ (by decide)

/-- **C2** fails on the code: a roster reload stores `turn_index`
verbatim — loading the spec's own scenario (`turn_index = 7` on a
3-entry roster) leaves `turn_index = 7` in memory, which is neither −1
nor a valid index.  (No exception is thrown and the value is only ever
compared, never used to index, which is what the amended claim
records.) -/
theorem turn_index_not_clamped_counterexample :
    (tick diskRoster7 {}).1.turn_index = 7 ∧
    (tick diskRoster7 {}).1.combatants.length = 3 ∧
    ¬((tick diskRoster7 {}).1.turn_index = -1 ∨
      (0 ≤ (tick diskRoster7 {}).1.turn_index ∧
       (tick diskRoster7 {}).1.turn_index <
         ((tick diskRoster7 {}).1.combatants.length : Int))) := by
  decide

/-- **C2 (amended)**: reloads store `turn_index` and `dialog_idx`
unclamped, but every use is guarded: the dialog renderer substitutes
index 0 (not `len − 1`) whenever `dialog_idx` is outside `[0, len)`, so
the index it actually uses is always in range of a non-empty dialog
list; the combat renderer only compares a card's position against
`turn_index` — the active badge appears exactly on the matching card, so
an out-of-range `turn_index` highlights nothing and nothing ever indexes
out of bounds. -/
theorem index_guarding_amended (st : OverlayState) (h : st.dialog ≠ []) :
    0 ≤ dialogIdxEff st ∧
    dialogIdxEff st < (st.dialog.length : Int) ∧
    ∀ icons portraits (i : Nat) (m : Combatant),
      ((∃ l, DrawOp.activeBadge l ∈ drawCard icons portraits st.turn_index i m)
        ↔ (i : Int) = st.turn_index) := by
  refine ⟨?_, ?_, ?_⟩
  · unfold dialogIdxEff
    split
    · next hc => exact hc.1
    · exact le_refl 0
  · unfold dialogIdxEff
    have hlen : 0 < st.dialog.length := List.length_pos.mpr h
    split
    · next hc => exact hc.2
    · exact_mod_cast hlen
  · intro icons portraits i m
    constructor
    · rintro ⟨l, hl⟩
      exact ((activeBadge_mem_drawCard icons portraits st.turn_index i m l).mp hl).1
    · intro hi
      exact ⟨_, (activeBadge_mem_drawCard icons portraits st.turn_index i m _).mpr
        ⟨hi, rfl⟩⟩

/-- Witness for C2 (amended) at a concrete state with an out-of-range
`dialog_idx = 5` over a one-block dialog list. -/
theorem index_guarding_amended_witness :
    0 ≤ dialogIdxEff stDialogW ∧
    dialogIdxEff stDialogW < (stDialogW.dialog.length : Int) :=
  ⟨(index_guarding_amended stDialogW (by decide)).1,
   (index_guarding_amended stDialogW (by decide)).2.1⟩

/-- **C5** fails on the code: `_draw_combat` draws an HP bar on *every*
card — the spec's enemy Goblin (side `"enemy"`, 7/7 HP) gets a full HP
bar, contradicting "only for non-enemy sides". -/
theorem enemy_hp_bar_counterexample :
    sideOf goblin = "enemy" ∧
    DrawOp.hpBarFill (hpFill goblin) ∈ drawCard [] [] 1 0 goblin ∧
    hpFill goblin = 1 := by
  refine ⟨by decide, by simp [drawCard], ?_⟩
  have h1 : hpEff goblin = 7 := by decide
  have h2 : hpMaxEff goblin = 7 := by decide
  rw [hpFill, h1, h2]
  norm_num

/-- **C5 (amended)**: an HP bar is drawn for every combatant regardless
of side; its filled fraction is `clamp(hp, 0, max(1, hpMax)) /
max(1, hpMax)` (with missing/zero fields defaulted), which always lies
in `[0, 1]` and coincides with `hp/hpMax` whenever `0 ≤ hp ≤ hpMax` and
`1 ≤ hpMax`. -/
theorem hp_bar_amended (icons portraits : List String) (t : Int) (i : Nat)
    (m : Combatant) :
    DrawOp.hpBarFill (hpFill m) ∈ drawCard icons portraits t i m ∧
    0 ≤ hpFill m ∧ hpFill m ≤ 1 ∧
    (∀ hv mv : Int, m.hp = some hv → m.hpMax = some mv →
      0 ≤ hv → hv ≤ mv → 1 ≤ mv → hpFill m = (hv : ℚ) / (mv : ℚ)) := by
  have hmax : (1 : Int) ≤ hpMaxEff m := le_max_left _ _
  have h0 : (0 : Int) ≤ hpEff m := le_max_left _ _
  have hle : hpEff m ≤ hpMaxEff m :=
    max_le (le_trans zero_le_one hmax) (min_le_right _ _)
  refine ⟨?_, ?_, ?_, ?_⟩
  · simp [drawCard]
  · exact div_nonneg (by exact_mod_cast h0)
      (by exact_mod_cast le_trans zero_le_one hmax)
  · rw [hpFill, div_le_one (by exact_mod_cast lt_of_lt_of_le zero_lt_one hmax)]
    exact_mod_cast hle
  · intro hv mv hhp hhm h0v hvm h1m
    have hmv0 : mv ≠ 0 := by omega
    have e1 : pyOrInt m.hp 0 = hv := by
      rw [hhp]; by_cases h : hv = 0 <;> simp [pyOrInt, h]
    have e2 : hpMaxEff m = mv := by
      rw [hpMaxEff, hhm]
      simp only [pyOrInt, hmv0, if_false]
      omega
    have e3 : hpEff m = hv := by
      rw [hpEff, e1, e2]
      omega
    rw [hpFill, e3, e2]

/-- Witness for C5 (amended) on the spec's Hero (15/20 HP): the bar is
drawn with fill fraction 3/4. -/
theorem hp_bar_amended_witness :
    DrawOp.hpBarFill (hpFill hero) ∈ drawCard [] [] 1 1 hero ∧
    hpFill hero = (15 : ℚ) / 20 :=
  ⟨(hp_bar_amended [] [] 1 1 hero).1,
   (hp_bar_amended [] [] 1 1 hero).2.2.2 15 20 rfl rfl (by norm_num)
     (by norm_num) (by norm_num)⟩

/-- **C7** fails on the code: a status without a cached icon draws a
plain circle with *no* letter — rendering the spec's Hero (status
`"poisoned"`, empty icon cache) emits the fallback ellipse and no text
operation showing `"P"` anywhere on the card. -/
theorem status_badge_counterexample :
    DrawOp.statusFallbackEllipse "poisoned" ∈ drawCard [] [] 1 1 hero ∧
    ∀ op ∈ drawCard [] [] 1 1 hero, textOfOp op ≠ some "P" := by
  decide

/-- **C7 (amended)**: a status key without a cached icon draws a
circular fallback badge, but the badge is unlabeled — no letter is drawn
on it. -/
theorem status_badge_amended (icons portraits : List String) (t : Int)
    (i : Nat) (m : Combatant) (key : String)
    (hk : key ∈ (m.statuses.getD []).take 4)
    (hni : strLower key ∉ icons) :
    DrawOp.statusFallbackEllipse key ∈ drawCard icons portraits t i m ∧
    textOfOp (DrawOp.statusFallbackEllipse key) = none := by
  refine ⟨?_, rfl⟩
  have hmem : DrawOp.statusFallbackEllipse key ∈
      ((m.statuses.getD []).take 4).map
        (fun key => if strLower key ∈ icons then DrawOp.statusIcon key
          else DrawOp.statusFallbackEllipse key) := by
    have := List.mem_map_of_mem
      (f := fun key => if strLower key ∈ icons then DrawOp.statusIcon key
        else DrawOp.statusFallbackEllipse key) hk
    simpa [hni] using this
  simp only [drawCard, List.mem_cons, List.mem_append]
  tauto

/-- Witness for C7 (amended) on the spec's Hero with an empty icon
cache. -/
theorem status_badge_amended_witness :
    DrawOp.statusFallbackEllipse "poisoned" ∈ drawCard [] [] 1 1 hero ∧
    textOfOp (DrawOp.statusFallbackEllipse "poisoned") = none :=
  status_badge_amended [] [] 1 1 hero "poisoned" (by decide) (by decide)

/-- Helper: a party file whose timestamp has not advanced (or is
missing) leaves the party section a complete no-op. -/
theorem partySec_nochange (d : Option (Int × Option PartyDoc))
    (st : OverlayState)
    (h : ∀ m c, d = some (m, c) → m ≤ st.last_party_mod) :
    updatePartySec d st = (st, 0, 0) := by
  rcases d with _ | ⟨m, c⟩
  · rfl
  · have hm := h m c rfl
    simp only [updatePartySec]
    rw [if_neg (not_lt.mpr hm)]

/-- Helper: a config file whose timestamp has not advanced (or is
missing) leaves the config section a complete no-op. -/
theorem configSec_nochange (d : Option (Int × Option ConfigDoc))
    (st : OverlayState)
    (h : ∀ m c, d = some (m, c) → m ≤ st.last_cfg_mod) :
    updateConfigSec d st = (st, 0, 0) := by
  rcases d with _ | ⟨m, c⟩
  · rfl
  · have hm := h m c rfl
    simp only [updateConfigSec]
    rw [if_neg (not_lt.mpr hm)]

/-- Helper: a present dialog-text file whose timestamp has not advanced
triggers no repaint (a missing one never repaints either). -/
theorem dialogSec_repaint_nochange (d : Option (Int × String))
    (st : OverlayState)
    (h : ∀ m c, d = some (m, c) → m ≤ st.last_dialog_mod) :
    (updateDialogSec d st).2.1 = 0 := by
  rcases d with _ | ⟨m, c⟩
  · rfl
  · have hm := h m c rfl
    simp only [updateDialogSec]
    rw [if_neg (not_lt.mpr hm)]

/-- Helper: the dialog-index section never issues a repaint. -/
theorem idxSec_repaint (d : Option (Int × Option IdxDoc)) (st : OverlayState) :
    (updateDialogIdxSec d st).2.1 = 0 := by
  rcases d with _ | ⟨m, _ | doc⟩
  · rfl
  · rfl
  · simp only [updateDialogIdxSec]
    split <;> rfl

/-- Helper: once the dialog list is empty and the typing state cleared,
the dialog-index section keeps them so. -/
theorem idxSec_cleared (d : Option (Int × Option IdxDoc)) (s : OverlayState)
    (h1 : s.dialog = []) (h2 : s.typing_active = false)
    (h3 : s.typing_text = "") (h4 : s.typing_index = 0) :
    (updateDialogIdxSec d s).1.dialog = [] ∧
    (updateDialogIdxSec d s).1.typing_active = false ∧
    (updateDialogIdxSec d s).1.typing_text = "" ∧
    (updateDialogIdxSec d s).1.typing_index = 0 := by
  rcases d with _ | ⟨m, _ | doc⟩
  · simp [updateDialogIdxSec, h1, h2, h3, h4]
  · simp [updateDialogIdxSec, h1, h2, h3, h4]
  · simp only [updateDialogIdxSec]
    split
    · simp [resetTypingEffect, h1]
    · simp [h1, h2, h3, h4]

/-- **C1**: each section reload is atomic.  If the roster, config or
dialog-index document is present but unparsable, the tick leaves that
section's in-memory fields exactly as they were; if the roster parses,
its fields are all replaced by the document's values in one step. -/
theorem reload_atomic (d : Disk) (st : OverlayState) :
    (∀ m, d.party = some (m, none) →
      (tick d st).1.combatants = st.combatants ∧
      (tick d st).1.turn_index = st.turn_index ∧
      (tick d st).1.round = st.round) ∧
    (∀ m, d.config = some (m, none) →
      (tick d st).1.theme_name = st.theme_name ∧
      (tick d st).1.fit_mode = st.fit_mode ∧
      (tick d st).1.mode = st.mode ∧
      (tick d st).1.timerInterval = st.timerInterval ∧
      (tick d st).1.timerActive = st.timerActive ∧
      (tick d st).1.cfg_screen = st.cfg_screen ∧
      (tick d st).1.cfg_fullscreen = st.cfg_fullscreen) ∧
    (∀ m, d.dialogIdx = some (m, none) →
      (tick d st).1.dialog_idx = st.dialog_idx) ∧
    (∀ m doc, d.party = some (m, some doc) → st.last_party_mod < m →
      (tick d st).1.combatants = doc.party.getD [] ∧
      (tick d st).1.turn_index = doc.turn_index.getD (-1) ∧
      (tick d st).1.round = doc.round.getD 1) := by
  refine ⟨?_, ?_, ?_, ?_⟩
  · intro m hm
    have hps : (updatePartySec d.party st).1 = st := by
      rw [hm]; simp only [updatePartySec]; split <;> rfl
    rw [tick_state, hps]
    have hc := configSec_frame d.config st
    have hd := dialogSec_frame d.dialogTxt (updateConfigSec d.config st).1
    have hi := idxSec_frame d.dialogIdx
      (updateDialogSec d.dialogTxt (updateConfigSec d.config st).1).1
    exact ⟨by rw [hi.1, hd.1, hc.1],
           by rw [hi.2.1, hd.2.1, hc.2.1],
           by rw [hi.2.2.1, hd.2.2.1, hc.2.2.1]⟩
  · intro m hm
    have hcs : ∀ s, (updateConfigSec d.config s).1 = s := by
      intro s; rw [hm]; simp only [updateConfigSec]; split <;> rfl
    rw [tick_state, hcs]
    have hp := partySec_frame d.party st
    have hd := dialogSec_frame d.dialogTxt (updatePartySec d.party st).1
    have hi := idxSec_frame d.dialogIdx
      (updateDialogSec d.dialogTxt (updatePartySec d.party st).1).1
    refine ⟨?_, ?_, ?_, ?_, ?_, ?_, ?_⟩
    · rw [hi.2.2.2.2.2.1, hd.2.2.2.2.2.1, hp.2.2.2.2.1]
    · rw [hi.2.2.2.2.2.2.1, hd.2.2.2.2.2.2.1, hp.2.2.2.2.2.1]
    · rw [hi.2.2.2.2.2.2.2.2.2.1, hd.2.2.2.2.2.2.2.2.2.1,
          hp.2.2.2.2.2.2.2.2.1]
    · rw [hi.2.2.2.2.2.2.2.2.2.2.1, hd.2.2.2.2.2.2.2.2.2.2.1,
          hp.2.2.2.2.2.2.2.2.2.1]
    · rw [hi.2.2.2.2.2.2.2.2.2.2.2.1, hd.2.2.2.2.2.2.2.2.2.2.2.1,
          hp.2.2.2.2.2.2.2.2.2.2.1]
    · rw [hi.2.2.2.2.2.2.2.1, hd.2.2.2.2.2.2.2.1, hp.2.2.2.2.2.2.1]
    · rw [hi.2.2.2.2.2.2.2.2.1, hd.2.2.2.2.2.2.2.2.1, hp.2.2.2.2.2.2.2.1]
  · intro m hm
    have his : ∀ s, (updateDialogIdxSec d.dialogIdx s).1 = s := by
      intro s; rw [hm]; rfl
    rw [tick_state, his]
    have hp := partySec_frame d.party st
    have hc := configSec_frame d.config (updatePartySec d.party st).1
    have hd := dialogSec_frame d.dialogTxt
      (updateConfigSec d.config (updatePartySec d.party st).1).1
    rw [hd.2.2.2.2.2.2.2.2.2.2.2.2, hc.2.2.2.2.2.1, hp.2.1]
  · intro m doc hm hlt
    have hps : (updatePartySec d.party st).1 =
        { st with combatants := doc.party.getD [],
                  turn_index := doc.turn_index.getD (-1),
                  round := doc.round.getD 1,
                  last_party_mod := m } := by
      rw [hm]; simp only [updatePartySec]; rw [if_pos hlt]
    rw [tick_state, hps]
    have hc := configSec_frame d.config
      { st with combatants := doc.party.getD [],
                turn_index := doc.turn_index.getD (-1),
                round := doc.round.getD 1, last_party_mod := m }
    have hd := dialogSec_frame d.dialogTxt
      (updateConfigSec d.config
        { st with combatants := doc.party.getD [],
                  turn_index := doc.turn_index.getD (-1),
                  round := doc.round.getD 1, last_party_mod := m }).1
    have hi := idxSec_frame d.dialogIdx
      (updateDialogSec d.dialogTxt
        (updateConfigSec d.config
          { st with combatants := doc.party.getD [],
                    turn_index := doc.turn_index.getD (-1),
                    round := doc.round.getD 1, last_party_mod := m }).1).1
    exact ⟨by rw [hi.1, hd.1, hc.1],
           by rw [hi.2.1, hd.2.1, hc.2.1],
           by rw [hi.2.2.1, hd.2.2.1, hc.2.2.1]⟩

/-- Witness for C1: all three JSON artifacts newer but unparsable — every
section keeps its previous value. -/
theorem reload_atomic_witness :
    (tick diskMalformed stTicked).1.combatants = stTicked.combatants ∧
    (tick diskMalformed stTicked).1.theme_name = stTicked.theme_name ∧
    (tick diskMalformed stTicked).1.dialog_idx = stTicked.dialog_idx :=
  ⟨((reload_atomic diskMalformed stTicked).1 20 rfl).1,
   ((reload_atomic diskMalformed stTicked).2.1 20 rfl).1,
   (reload_atomic diskMalformed stTicked).2.2.1 20 rfl⟩

/-- **C3** is violated by the code (the spec records the intent): with
no timestamp advanced, a tick still performs parsing work — the
dialog-index side-channel is `json.load`ed on every tick because the
`mtime` computed for it on line 233 is never compared to anything; and a
roster file that failed to parse is re-parsed every tick because
`last_party_mod` is only advanced on success.  Here: a fully stale disk
still performs one parse (while leaving state bit-for-bit identical),
and a malformed roster is re-parsed by each of two consecutive ticks. -/
theorem reload_not_idempotent_bug :
    (tick diskStale stTicked).1 = stTicked ∧
    (tick diskStale stTicked).2.2 = 1 ∧
    (tick diskBad stTicked).2.2 = 1 ∧
    (tick diskBad (tick diskBad stTicked).1).2.2 = 1 := by
  decide

/-- **C9** fails on the code: each section issues its own `repaint()` —
a tick in which both the roster and the dialog text changed produces two
redraws, not one. -/
theorem redraw_not_coalesced_counterexample :
    (tick diskTwo {}).2.1 = 2 ∧ (tick diskTwo {}).2.1 ≠ 1 := by
  decide

/-- **C9 (amended)**: redraws are per-section, not coalesced: a tick
with no changed section issues zero repaints, and a tick where only the
roster changed (and parsed) issues exactly one; but each changed section
repaints on its own (up to three for config alone), so several changed
sections yield several repaints, and a dialog-index change yields
none. -/
theorem redraw_amended (d : Disk) (st : OverlayState) :
    ((∀ m c, d.party = some (m, c) → m ≤ st.last_party_mod) →
     (∀ m c, d.config = some (m, c) → m ≤ st.last_cfg_mod) →
     (∀ m c, d.dialogTxt = some (m, c) → m ≤ st.last_dialog_mod) →
     (tick d st).2.1 = 0) ∧
    (∀ m doc, d.party = some (m, some doc) → st.last_party_mod < m →
      d.config = none → d.dialogTxt = none →
      (tick d st).2.1 = 1) := by
  constructor
  · intro h1 h2 h3
    rw [tick_repaints]
    rw [partySec_nochange d.party st h1]
    simp only [configSec_nochange d.config st h2]
    simp [dialogSec_repaint_nochange d.dialogTxt st h3, idxSec_repaint]
  · intro m doc hm hlt hc hd
    rw [tick_repaints, hm, hc, hd]
    have hps : updatePartySec (some (m, some doc)) st =
        ({ st with combatants := doc.party.getD [],
                   turn_index := doc.turn_index.getD (-1),
                   round := doc.round.getD 1,
                   last_party_mod := m }, 1, 1) := by
      simp only [updatePartySec]; rw [if_pos hlt]
    rw [hps]
    simp [updateConfigSec, updateDialogSec, idxSec_repaint]

/-- Witness for C9 (amended): a tick with no artifacts present repaints
nothing. -/
theorem redraw_amended_witness : (tick {} {}).2.1 = 0 :=
  (redraw_amended {} {}).1 (fun _ _ h => nomatch h) (fun _ _ h => nomatch h)
    (fun _ _ h => nomatch h)

/-- **C10**: a missing dialog text file resets the dialog list to `[]`
and clears the typing-reveal state (timer stopped, counter zeroed,
pending text emptied), while a missing roster file leaves the previously
loaded roster untouched. -/
theorem dialog_missing_vs_roster_missing (d : Disk) (st : OverlayState)
    (hd : d.dialogTxt = none) (hp : d.party = none) :
    (tick d st).1.dialog = [] ∧
    (tick d st).1.typing_active = false ∧
    (tick d st).1.typing_text = "" ∧
    (tick d st).1.typing_index = 0 ∧
    (tick d st).1.combatants = st.combatants ∧
    (tick d st).1.turn_index = st.turn_index ∧
    (tick d st).1.round = st.round := by
  rw [tick_state, hp, hd]
  have hps : (updatePartySec none st).1 = st := rfl
  rw [hps]
  have hds : (updateDialogSec none (updateConfigSec d.config st).1).1 =
      { (updateConfigSec d.config st).1 with
          dialog := [], typing_active := false,
          typing_text := "", typing_index := 0 } := rfl
  rw [hds]
  have hcl := idxSec_cleared d.dialogIdx
    { (updateConfigSec d.config st).1 with
        dialog := [], typing_active := false,
        typing_text := "", typing_index := 0 } rfl rfl rfl rfl
  have hc := configSec_frame d.config st
  have hi := idxSec_frame d.dialogIdx
    { (updateConfigSec d.config st).1 with
        dialog := [], typing_active := false,
        typing_text := "", typing_index := 0 }
  exact ⟨hcl.1, hcl.2.1, hcl.2.2.1, hcl.2.2.2,
         by rw [hi.1]; exact hc.1,
         by rw [hi.2.1]; exact hc.2.1,
         by rw [hi.2.2.1]; exact hc.2.2.1⟩

/-- Witness for C10: deleting every artifact under a fully loaded state
blanks the dialog but keeps the roster. -/
theorem dialog_missing_vs_roster_missing_witness :
    (tick {} stLoaded).1.dialog = [] ∧
    (tick {} stLoaded).1.combatants = stLoaded.combatants :=
  ⟨(dialog_missing_vs_roster_missing {} stLoaded rfl rfl).1,
   (dialog_missing_vs_roster_missing {} stLoaded rfl rfl).2.2.2.2.1⟩

end EncounterOS
